import Mathlib

/-!
Shallow embedding of the connection/registration subsystem of the
networking101 server (`src/server.c`, `src/w-helper.c`).

Machine integers are modelled as `Nat` (unsigned) and `Int` (C `int`),
byte buffers as `List Nat`, and the global mutable state of `server.c`
(`g_players`, `g_player_count`, `g_next_player_id`) as an explicit
`ServerState` threaded through the operations.  Socket I/O performed by
`recvall` / `sendall` is modelled by a trace of events, one event per
underlying `recv` / `send` call.
-/

namespace Networking101

-- ==========================================================================
-- CONFIGURATION (server.c lines 19-34)
-- ==========================================================================

def MAX_CLIENTS : Nat := 32
def MAX_PLAYERS : Nat := MAX_CLIENTS
def MAX_TAG_LEN : Nat := 31
def MAX_AVATAR_W : Nat := 8
def MAX_AVATAR_H : Nat := 8
def AVATAR_CHANNEL_COUNT : Nat := 4
def RGBA_CHANNEL_COUNT : Nat := 4
def RGB_CHANNEL_COUNT : Nat := 3
def WINDOW_W : Int := 500
def WINDOW_H : Int := 500

def MIN_PLAYER_X_POS : Int := 100
def MAX_PLAYER_X_POS : Int := 400
def MIN_PLAYER_Y_POS : Int := 100
def MAX_PLAYER_Y_POS : Int := 400

-- ==========================================================================
-- WIRE HELPERS (w-helper.c)
-- ==========================================================================

/-- `irand(a, b)` from w-helper.c: `a + rand() % (b - a + 1)`.
The value returned by `rand()` is the extra parameter `r` (a nonnegative
C `int`, hence a `Nat`). -/
def irand (a b : Int) (r : Nat) : Int :=
  a + (r : Int) % (b - a + 1)

/-- One underlying `recv` call, as observed by `recvall`:
`data bs` is a successful call delivering (a prefix of) `bs`; a delivery
of zero bytes (`data []`) is the peer-closed outcome; `intr` is a failed
call with `errno == EINTR`; `err` is a failed call with any other errno. -/
inductive NetEv where
  | data (bs : List Nat)
  | intr
  | err
deriving DecidableEq, Repr

/-- `recvall(fd, buf, len)` from w-helper.c, driven by the trace `evs` of
underlying `recv` results.  `acc` is the data stored into `buf` so far
(`nrecv = acc.length`).  Each `recv` is asked for `len - nrecv` bytes, so
a `data bs` event delivers `bs.take (len - nrecv)`.  Returns
`some (ret, buf)` when the C function returns `ret` with `buf` filled,
and `none` when the trace is exhausted while the loop would still block. -/
def recvall (evs : List NetEv) (len : Nat) (acc : List Nat) :
    Option (Int × List Nat) :=
  if len ≤ acc.length then
    some ((acc.length : Int), acc)
  else
    match evs with
    | [] => none
    | NetEv.data bs :: rest =>
      let delivered := bs.take (len - acc.length)
      if delivered.length = 0 then
        some (0, acc)
      else
        recvall rest len (acc ++ delivered)
    | NetEv.intr :: rest => recvall rest len acc
    | NetEv.err :: _ => some (-1, acc)

/-- One underlying `send` call, as observed by `sendall`:
`ok n` is a call that returned the positive count `n + 1` (the code routes
every return `≤ 0` through the errno branch, so a successful event always
carries at least one byte); `intr` is a return `≤ 0` with `errno == EINTR`;
`err` is a return `≤ 0` with any other errno. -/
inductive SendEv where
  | ok (n : Nat)
  | intr
  | err
deriving DecidableEq, Repr

/-- `sendall(fd, buf, len)` from w-helper.c, driven by the trace `evs`.
`nsent` counts bytes transferred so far; each `send` is asked for
`len - nsent` bytes and transfers at most that many.  Returns `some ret`
when the C function returns `ret`, `none` when the trace runs out while
the loop would still block. -/
def sendall (evs : List SendEv) (len nsent : Nat) : Option Int :=
  if len ≤ nsent then
    some ((nsent : Int))
  else
    match evs with
    | [] => none
    | SendEv.ok n :: rest => sendall rest len (nsent + min (n + 1) (len - nsent))
    | SendEv.intr :: rest => sendall rest len nsent
    | SendEv.err :: _ => some (-1)

-- ==========================================================================
-- PLAYER DATA STRUCTURE (server.c lines 51-64)
-- ==========================================================================

/-- The `Player` struct.  `tag` is the byte content of the char array,
`avatar` the bytes behind the avatar pointer (`[]` models `NULL`), and the
raylib `Texture2D tex` handle is out of scope (only its two bookkeeping
flags are kept). -/
structure Player where
  ip : Nat
  player_id : Nat
  tag : List Nat
  pos_x : Int
  pos_y : Int
  avatar : List Nat
  w : Nat
  h : Nat
  ch : Nat
  connected : Bool
  tex_inited : Bool
  tex_dirty : Bool
deriving DecidableEq, Repr

/-- An all-zero `Player`, the result of `memset(p, 0, sizeof *p)` and the
initial content of every slot of the static array `g_players`. -/
def zeroPlayer : Player :=
  { ip := 0, player_id := 0, tag := [], pos_x := 0, pos_y := 0,
    avatar := [], w := 0, h := 0, ch := 0,
    connected := false, tex_inited := false, tex_dirty := false }

-- ==========================================================================
-- GLOBAL SHARED STATE (server.c lines 73-78)
-- ==========================================================================

/-- The mutable globals of server.c: the fixed-size array `g_players`
(a list of length `MAX_PLAYERS`), `g_player_count`, and
`g_next_player_id`. -/
structure ServerState where
  players : List Player
  player_count : Nat
  next_player_id : Nat
deriving DecidableEq, Repr

/-- The state at process start: `g_players` zero-initialized,
`g_player_count = 0`, `g_next_player_id = 1`. -/
def sInit : ServerState :=
  { players := List.replicate MAX_PLAYERS zeroPlayer,
    player_count := 0,
    next_player_id := 1 }

-- ==========================================================================
-- PLAYER TABLE OPERATIONS (server.c lines 93-151)
-- ==========================================================================

/-- `find_player_by_ip` (server.c lines 93-104): linear scan of the first
`g_player_count` slots; returns the index of the first slot whose `ip`
matches (the C function returns a pointer to that slot), `none` for NULL. -/
def find_player_by_ip (s : ServerState) (target_ip : Nat) : Option Nat :=
  (List.range s.player_count).find?
    (fun i => (s.players.getD i zeroPlayer).ip == target_ip)

/-- `ensure_player` (server.c lines 111-152).  `rx` and `ry` are the two
`rand()` draws consumed by `irand`.  Returns the index of the returned
player together with the updated globals, or `none` for the NULL
(table-full) return.  Faithful to the source: the new slot index is
`g_player_count + 1`, and neither `g_player_count` nor `g_next_player_id`
is updated. -/
def ensure_player (rx ry : Nat) (s : ServerState) (target_ip : Nat) :
    Option (Nat × ServerState) :=
  match find_player_by_ip s target_ip with
  | some i => some (i, s)
  | none =>
    if MAX_PLAYERS ≤ s.player_count then
      none
    else
      let new_player_index := s.player_count + 1
      let new_player : Player :=
        { zeroPlayer with
            ip := target_ip
            player_id := s.next_player_id + 1
            pos_x := irand MIN_PLAYER_X_POS (WINDOW_W - MAX_PLAYER_X_POS) rx
            pos_y := irand MIN_PLAYER_Y_POS (WINDOW_H - MAX_PLAYER_Y_POS) ry
            connected := false
            tex_inited := false
            tex_dirty := false }
      some (new_player_index,
            { s with players := s.players.set new_player_index new_player })

-- ==========================================================================
-- AVATAR NORMALIZATION (server.c lines 164-251)
-- ==========================================================================

/-- Clamping of one avatar dimension (server.c lines 173-181):
`if (d > m) d = m`. -/
def clampDim (d m : Nat) : Nat :=
  if d > m then m else d

/-- The four output bytes `[r, g, b, a]` computed for flat pixel index `i`
by the conversion branches of `set_player_avatar` (server.c lines
206-231).  Out-of-range reads of the source buffer are modelled by
`getD _ 0`; `srcReads` below records which indices the C code actually
dereferences. -/
def pixelRGBA (av_pixels : List Nat) (av_ch : Nat) (i : Nat) : List Nat :=
  if av_ch = RGBA_CHANNEL_COUNT then
    [av_pixels.getD (i * RGBA_CHANNEL_COUNT + 0) 0,
     av_pixels.getD (i * RGBA_CHANNEL_COUNT + 1) 0,
     av_pixels.getD (i * RGBA_CHANNEL_COUNT + 2) 0,
     av_pixels.getD (i * RGBA_CHANNEL_COUNT + 3) 0]
  else if av_ch = RGB_CHANNEL_COUNT then
    [av_pixels.getD (i * RGB_CHANNEL_COUNT + 0) 0,
     av_pixels.getD (i * RGB_CHANNEL_COUNT + 1) 0,
     av_pixels.getD (i * RGB_CHANNEL_COUNT + 2) 0,
     255]
  else
    [av_pixels.getD i 0, av_pixels.getD i 0, av_pixels.getD i 0, 255]

/-- The double pixel loop of `set_player_avatar` (server.c lines 198-239):
for each `y < h`, `x < w`, flat index `i = y * w + x`, append the four
converted bytes at output offset `i * 4`.  `w` and `h` are the already
clamped dimensions. -/
def avatarLoop (av_pixels : List Nat) (av_ch w h : Nat) : List Nat :=
  (List.range h).flatMap (fun y =>
    (List.range w).flatMap (fun x =>
      pixelRGBA av_pixels av_ch (y * w + x)))

/-- The avatar normalization computed inside `set_player_avatar`: clamp
the dimensions, then run the conversion loop to produce the RGBA32
buffer. -/
def normalize_avatar (av_pixels : List Nat) (av_w av_h av_ch : Nat) :
    List Nat :=
  avatarLoop av_pixels av_ch (clampDim av_w MAX_AVATAR_W)
    (clampDim av_h MAX_AVATAR_H)

/-- The flat indices into `av_pixels` dereferenced by the conversion loop
of `set_player_avatar`, for clamped dimensions `w`, `h` and channel count
`av_ch` (server.c lines 198-231). -/
def srcReads (av_ch w h : Nat) : List Nat :=
  (List.range h).flatMap (fun y =>
    (List.range w).flatMap (fun x =>
      let i := y * w + x
      if av_ch = RGBA_CHANNEL_COUNT then
        [i * RGBA_CHANNEL_COUNT + 0, i * RGBA_CHANNEL_COUNT + 1,
         i * RGBA_CHANNEL_COUNT + 2, i * RGBA_CHANNEL_COUNT + 3]
      else if av_ch = RGB_CHANNEL_COUNT then
        [i * RGB_CHANNEL_COUNT + 0, i * RGB_CHANNEL_COUNT + 1,
         i * RGB_CHANNEL_COUNT + 2]
      else
        [i]))

/-- `set_player_avatar` (server.c lines 164-251).  `allocOk` is the
outcome of the `malloc` of the output buffer; when it fails the function
returns `false` before touching the player.  On success the player's
avatar buffer is replaced, the clamped dimensions and channel count 4 are
recorded, and `tex_dirty` is set. -/
def set_player_avatar (allocOk : Bool) (target_player : Player)
    (av_pixels : List Nat) (av_w av_h av_ch : Nat) : Bool × Player :=
  let w := clampDim av_w MAX_AVATAR_W
  let h := clampDim av_h MAX_AVATAR_H
  if !allocOk then
    (false, target_player)
  else
    let image_buf := avatarLoop av_pixels av_ch w h
    (true,
     { target_player with
         avatar := image_buf
         w := w
         h := h
         ch := RGBA_CHANNEL_COUNT
         tex_dirty := true })

-- ==========================================================================
-- REACHABLE GLOBAL STATES
-- ==========================================================================

/-- `set_player_avatar` applied through the table: replace slot `i` by the
updated player (the C call mutates `g_players[i]` in place). -/
def applyAvatarAt (s : ServerState) (i : Nat) (allocOk : Bool)
    (av_pixels : List Nat) (av_w av_h av_ch : Nat) : ServerState :=
  { s with
      players := s.players.set i
        (set_player_avatar allocOk (s.players.getD i zeroPlayer)
          av_pixels av_w av_h av_ch).2 }

/-- The global states reachable from process start through the two
table-mutating operations of the core (`ensure_player` and
`set_player_avatar`; the protocol handler and listener in server.c have
no bodies). -/
inductive Reachable : ServerState → Prop where
  | init : Reachable sInit
  | ensure (rx ry target_ip k : Nat) (s s' : ServerState) :
      Reachable s → ensure_player rx ry s target_ip = some (k, s') →
      Reachable s'
  | avatar (i : Nat) (allocOk : Bool) (av_pixels : List Nat)
      (av_w av_h av_ch : Nat) (s : ServerState) :
      Reachable s →
      Reachable (applyAvatarAt s i allocOk av_pixels av_w av_h av_ch)

-- ==========================================================================
-- AUXILIARY STATES AND PREDICATES USED IN THE STATEMENTS
-- ==========================================================================

/-- A hypothetical state whose `g_player_count` reports a full table
(all slots still zero-initialized), used to exercise the capacity check of
`ensure_player`. -/
def sFull : ServerState := { sInit with player_count := MAX_PLAYERS }

/-- Does the player slot returned by an `ensure_player` call hold a
position inside the configured rectangle?  (Vacuously true for the NULL
return.) -/
def createdPosOk : Option (Nat × ServerState) → Bool
  | none => true
  | some (k, s') =>
    decide (MIN_PLAYER_X_POS ≤ (s'.players.getD k zeroPlayer).pos_x) &&
    decide ((s'.players.getD k zeroPlayer).pos_x ≤ MAX_PLAYER_X_POS) &&
    decide (MIN_PLAYER_Y_POS ≤ (s'.players.getD k zeroPlayer).pos_y) &&
    decide ((s'.players.getD k zeroPlayer).pos_y ≤ MAX_PLAYER_Y_POS)

-- ==========================================================================
-- GENERAL HELPER LEMMAS
-- ==========================================================================

theorem getD_set_self {α : Type} (l : List α) (i : Nat) (a d : α)
    (h : i < l.length) : (l.set i a).getD i d = a := by
  rw [List.getD_eq_getElem?_getD, List.getElem?_set_self h]
  rfl

theorem length_flatMap_range (f : Nat → List Nat) (L : Nat)
    (hf : ∀ j, (f j).length = L) (n : Nat) :
    ((List.range n).flatMap f).length = n * L := by
  induction n with
  | zero => simp
  | succ m ih =>
    rw [List.range_succ, List.flatMap_append, List.length_append, ih]
    simp [hf, Nat.succ_mul]

theorem flatMap_range_extract (f : Nat → List Nat) (L : Nat)
    (hf : ∀ j, (f j).length = L) (n : Nat) :
    ∀ i, i < n → (((List.range n).flatMap f).drop (i * L)).take L = f i := by
  induction n with
  | zero => intro i hi; omega
  | succ m ih =>
    intro i hi
    rw [List.range_succ, List.flatMap_append]
    have hlen : ((List.range m).flatMap f).length = m * L :=
      length_flatMap_range f L hf m
    by_cases him : i < m
    · have h3 : i * L + L ≤ m * L := by
        rw [← Nat.succ_mul]
        exact Nat.mul_le_mul_right L him
      rw [List.drop_append_of_le_length (by omega)]
      have h2 : L ≤ (((List.range m).flatMap f).drop (i * L)).length := by
        rw [List.length_drop, hlen]
        omega
      rw [List.take_append_of_le_length h2, ih i him]
    · have hi' : i = m := by omega
      subst hi'
      rw [← hlen, List.drop_left]
      simp only [List.flatMap_cons, List.flatMap_nil, List.append_nil]
      exact List.take_of_length_le (by rw [hf])

theorem double_loop_flatten (g : Nat → List Nat) (w : Nat) (h : Nat) :
    (List.range h).flatMap
        (fun y => (List.range w).flatMap (fun x => g (y * w + x))) =
      (List.range (h * w)).flatMap g := by
  induction h with
  | zero => simp
  | succ m ih =>
    rw [List.range_succ, List.flatMap_append, ih, Nat.succ_mul, List.range_add,
        List.flatMap_append, List.flatMap_map]
    simp

theorem pixelRGBA_length (p : List Nat) (ch i : Nat) :
    (pixelRGBA p ch i).length = 4 := by
  unfold pixelRGBA
  split_ifs <;> rfl

/-- Basic invariant of every reachable state: the player array keeps its
static length, and — because `ensure_player` never updates them —
`g_player_count` stays `0` and `g_next_player_id` stays `1`. -/
theorem reachable_invariant (s : ServerState) (hs : Reachable s) :
    s.players.length = MAX_PLAYERS ∧ s.player_count = 0 ∧
      s.next_player_id = 1 := by
  induction hs with
  | init =>
    refine ⟨?_, rfl, rfl⟩
    simp [sInit]
  | ensure rx ry target_ip k s s' _ hstep ih =>
    unfold ensure_player at hstep
    rcases hfind : find_player_by_ip s target_ip with _ | j
    · rw [hfind] at hstep
      simp only at hstep
      by_cases hfull : MAX_PLAYERS ≤ s.player_count
      · simp [hfull] at hstep
      · simp only [hfull, if_false] at hstep
        obtain ⟨-, rfl⟩ := Prod.mk.injEq .. ▸ Option.some.injEq .. ▸ hstep
        refine ⟨?_, ih.2.1, ih.2.2⟩
        simpa using ih.1
    · rw [hfind] at hstep
      simp only [Option.some.injEq, Prod.mk.injEq] at hstep
      obtain ⟨-, rfl⟩ := hstep
      exact ih
  | avatar i allocOk av_pixels av_w av_h av_ch s _ ih =>
    refine ⟨?_, ih.2.1, ih.2.2⟩
    simpa [applyAvatarAt] using ih.1

/-- Outcome trichotomy for the `recvall` loop, generalized over the bytes
`acc` already received. -/
theorem recvall_acc_outcomes (evs : List NetEv) :
    ∀ (len : Nat) (acc buf : List Nat) (ret : Int),
      acc.length ≤ len → recvall evs len acc = some (ret, buf) →
      (ret = (len : Int) ∧ buf.length = len) ∨ ret = 0 ∨ ret = -1 := by
  induction evs with
  | nil =>
    intro len acc buf ret hle h
    unfold recvall at h
    split_ifs at h with hif
    · simp only [Option.some.injEq, Prod.mk.injEq] at h
      left
      have heq : acc.length = len := le_antisymm hle hif
      refine ⟨?_, ?_⟩
      · rw [← h.1, heq]
      · rw [← h.2, heq]
  | cons ev rest ih =>
    intro len acc buf ret hle h
    unfold recvall at h
    split_ifs at h with hif
    · simp only [Option.some.injEq, Prod.mk.injEq] at h
      left
      have heq : acc.length = len := le_antisymm hle hif
      refine ⟨?_, ?_⟩
      · rw [← h.1, heq]
      · rw [← h.2, heq]
    · cases ev with
      | data bs =>
        dsimp only at h
        split_ifs at h with hd
        · simp only [Option.some.injEq, Prod.mk.injEq] at h
          right; left; exact h.1.symm
        · refine ih len (acc ++ (bs.take (len - acc.length))) buf ret ?_ h
          rw [List.length_append, List.length_take]
          omega
      | intr => exact ih len acc buf ret hle h
      | err =>
        simp only [Option.some.injEq, Prod.mk.injEq] at h
        right; right; exact h.1.symm

/-- Outcome dichotomy for the `sendall` loop, generalized over the count
`nsent` of bytes already transferred. -/
theorem sendall_acc_outcomes (evs : List SendEv) :
    ∀ (len nsent : Nat) (ret : Int),
      nsent ≤ len → sendall evs len nsent = some ret →
      ret = (len : Int) ∨ ret = -1 := by
  induction evs with
  | nil =>
    intro len nsent ret hle h
    unfold sendall at h
    split_ifs at h with hif
    · simp only [Option.some.injEq] at h
      left
      have heq : nsent = len := le_antisymm hle hif
      rw [← h, heq]
  | cons ev rest ih =>
    intro len nsent ret hle h
    unfold sendall at h
    split_ifs at h with hif
    · simp only [Option.some.injEq] at h
      left
      have heq : nsent = len := le_antisymm hle hif
      rw [← h, heq]
    · cases ev with
      | ok n =>
        refine ih len (nsent + min (n + 1) (len - nsent)) ret ?_ h
        have := Nat.min_le_right (n + 1) (len - nsent)
        omega
      | intr => exact ih len nsent ret hle h
      | err =>
        simp only [Option.some.injEq] at h
        right; exact h.symm

/-- C6: `recvall(fd, buf, len)` distinguishes exactly three outcomes —
it returns `len` with all `len` bytes stored on success, `0` on orderly
peer shutdown (immediately, never retried), and `-1` on a non-interrupted
I/O failure; an `EINTR` result is retried transparently and never
surfaced; and `sendall` returns `len` only when every byte has been
transferred and `-1` otherwise, so a short transfer is never exposed. -/
theorem wire_helpers_all_or_nothing :
    (∀ (evs : List NetEv) (len : Nat) (ret : Int) (buf : List Nat),
        recvall evs len [] = some (ret, buf) →
        (ret = (len : Int) ∧ buf.length = len) ∨ ret = 0 ∨ ret = -1) ∧
    (∀ (evs : List NetEv) (len : Nat) (acc : List Nat), acc.length < len →
        recvall (NetEv.intr :: evs) len acc = recvall evs len acc) ∧
    (∀ (evs : List NetEv) (len : Nat) (acc : List Nat), acc.length < len →
        recvall (NetEv.data [] :: evs) len acc = some (0, acc)) ∧
    (∀ (evs : List NetEv) (len : Nat) (acc : List Nat), acc.length < len →
        recvall (NetEv.err :: evs) len acc = some (-1, acc)) ∧
    (∀ (evs : List SendEv) (len : Nat) (ret : Int),
        sendall evs len 0 = some ret → ret = (len : Int) ∨ ret = -1) ∧
    (∀ (evs : List SendEv) (len nsent : Nat), nsent < len →
        sendall (SendEv.intr :: evs) len nsent = sendall evs len nsent) := by
  refine ⟨?_, ?_, ?_, ?_, ?_, ?_⟩
  · intro evs len ret buf h
    exact recvall_acc_outcomes evs len [] buf ret (by simp) h
  · intro evs len acc hlt
    rw [recvall, if_neg (by omega)]
  · intro evs len acc hlt
    rw [recvall, if_neg (by omega)]
    simp
  · intro evs len acc hlt
    rw [recvall, if_neg (by omega)]
  · intro evs len ret h
    exact sendall_acc_outcomes evs len 0 ret (by omega) h
  · intro evs len nsent hlt
    rw [sendall, if_neg (by omega)]

/-- Witness for C6: concrete applications of each hypothesis-carrying
conjunct — a fragmented two-`recv` transfer of 3 bytes succeeds with
return value 3, an interrupted first `recv` is transparently skipped, and
a fragmented `send` of 3 bytes returns 3 or -1. -/
theorem wire_helpers_all_or_nothing_witness :
    (recvall [NetEv.data [7, 8], NetEv.intr, NetEv.data [9]] 3 [] =
        some (3, [7, 8, 9])) ∧
    (((3 : Int) = ((3 : Nat) : Int) ∧ ([7, 8, 9] : List Nat).length = 3) ∨
        (3 : Int) = 0 ∨ (3 : Int) = -1) ∧
    recvall [NetEv.intr, NetEv.data [7]] 1 [] = recvall [NetEv.data [7]] 1 [] ∧
    (sendall [SendEv.ok 0, SendEv.intr, SendEv.ok 5] 3 0 = some 3) ∧
    ((3 : Int) = ((3 : Nat) : Int) ∨ (3 : Int) = -1) :=
  ⟨by decide,
   wire_helpers_all_or_nothing.1
     [NetEv.data [7, 8], NetEv.intr, NetEv.data [9]] 3 3 [7, 8, 9] (by decide),
   wire_helpers_all_or_nothing.2.1 [NetEv.data [7]] 1 [] (by decide),
   by decide,
   wire_helpers_all_or_nothing.2.2.2.2.1
     [SendEv.ok 0, SendEv.intr, SendEv.ok 5] 3 3 (by decide)⟩

/-- C8: when allocation of the normalized RGBA buffer fails,
`set_player_avatar` returns `false` and the target player is returned
entirely unchanged — avatar buffer, dimensions, dirty flag and every
other field keep their prior values. -/
theorem set_player_avatar_alloc_failure_unchanged (target_player : Player)
    (av_pixels : List Nat) (av_w av_h av_ch : Nat) :
    set_player_avatar false target_player av_pixels av_w av_h av_ch =
      (false, target_player) := rfl

/-- C9: on success `set_player_avatar` swaps in the newly normalized
avatar buffer, records the clamped width and height with channel count 4,
sets the dirty flag, and leaves every other field of the player (ip,
player_id, tag, position, connected, tex_inited) unchanged. -/
theorem set_player_avatar_success_effect (target_player : Player)
    (av_pixels : List Nat) (av_w av_h av_ch : Nat) :
    (set_player_avatar true target_player av_pixels av_w av_h av_ch).1 =
        true ∧
    (set_player_avatar true target_player av_pixels av_w av_h av_ch).2 =
      { target_player with
          avatar := normalize_avatar av_pixels av_w av_h av_ch
          w := clampDim av_w MAX_AVATAR_W
          h := clampDim av_h MAX_AVATAR_H
          ch := RGBA_CHANNEL_COUNT
          tex_dirty := true } ∧
    (set_player_avatar true target_player av_pixels av_w av_h av_ch).2.ip =
        target_player.ip ∧
    (set_player_avatar true target_player av_pixels av_w av_h
          av_ch).2.player_id = target_player.player_id ∧
    (set_player_avatar true target_player av_pixels av_w av_h av_ch).2.tag =
        target_player.tag ∧
    (set_player_avatar true target_player av_pixels av_w av_h
          av_ch).2.pos_x = target_player.pos_x ∧
    (set_player_avatar true target_player av_pixels av_w av_h
          av_ch).2.pos_y = target_player.pos_y ∧
    (set_player_avatar true target_player av_pixels av_w av_h
          av_ch).2.connected = target_player.connected ∧
    (set_player_avatar true target_player av_pixels av_w av_h
          av_ch).2.tex_inited = target_player.tex_inited ∧
    (set_player_avatar true target_player av_pixels av_w av_h
          av_ch).2.tex_dirty = true :=
  ⟨rfl, rfl, rfl, rfl, rfl, rfl, rfl, rfl, rfl, rfl⟩

/-- C5: avatar normalization is a function of
(pixels, width, height, channel count); the output has exactly
`clampedWidth * clampedHeight * 4` bytes, and each output pixel is R,G,B,A
copied verbatim for channel count 4, R,G,B plus alpha 255 for channel
count 3, and the single input byte replicated with alpha 255 for any
other channel count. -/
theorem normalize_avatar_spec (av_pixels : List Nat) (av_w av_h av_ch : Nat) :
    (normalize_avatar av_pixels av_w av_h av_ch).length =
      clampDim av_w MAX_AVATAR_W * clampDim av_h MAX_AVATAR_H * 4 ∧
    (∀ i, i < clampDim av_w MAX_AVATAR_W * clampDim av_h MAX_AVATAR_H →
      (av_ch = 4 →
        ((normalize_avatar av_pixels av_w av_h av_ch).drop (i * 4)).take 4 =
          [av_pixels.getD (i * 4) 0, av_pixels.getD (i * 4 + 1) 0,
           av_pixels.getD (i * 4 + 2) 0, av_pixels.getD (i * 4 + 3) 0]) ∧
      (av_ch = 3 →
        ((normalize_avatar av_pixels av_w av_h av_ch).drop (i * 4)).take 4 =
          [av_pixels.getD (i * 3) 0, av_pixels.getD (i * 3 + 1) 0,
           av_pixels.getD (i * 3 + 2) 0, 255]) ∧
      (av_ch ≠ 4 → av_ch ≠ 3 →
        ((normalize_avatar av_pixels av_w av_h av_ch).drop (i * 4)).take 4 =
          [av_pixels.getD i 0, av_pixels.getD i 0, av_pixels.getD i 0,
           255])) := by
  have hflat : normalize_avatar av_pixels av_w av_h av_ch =
      (List.range
          (clampDim av_h MAX_AVATAR_H * clampDim av_w MAX_AVATAR_W)).flatMap
        (pixelRGBA av_pixels av_ch) := by
    unfold normalize_avatar avatarLoop
    exact double_loop_flatten _ _ _
  constructor
  · rw [hflat,
      length_flatMap_range _ 4 (fun j => pixelRGBA_length av_pixels av_ch j)]
    ring
  · intro i hi
    have hi' : i < clampDim av_h MAX_AVATAR_H * clampDim av_w MAX_AVATAR_W := by
      rw [Nat.mul_comm]
      exact hi
    have hext := flatMap_range_extract (pixelRGBA av_pixels av_ch) 4
      (fun j => pixelRGBA_length av_pixels av_ch j) _ i hi'
    rw [hflat, hext]
    refine ⟨?_, ?_, ?_⟩
    · intro hch
      subst hch
      simp [pixelRGBA, RGBA_CHANNEL_COUNT]
    · intro hch
      subst hch
      simp [pixelRGBA, RGBA_CHANNEL_COUNT, RGB_CHANNEL_COUNT]
    · intro hch4 hch3
      simp [pixelRGBA, RGBA_CHANNEL_COUNT, RGB_CHANNEL_COUNT, hch4, hch3]

/-- Witness for C5: the single-pixel 3-channel image `[10, 20, 30]`
normalizes to the RGBA bytes `[10, 20, 30, 255]`. -/
theorem normalize_avatar_spec_witness :
    (0 < clampDim 1 MAX_AVATAR_W * clampDim 1 MAX_AVATAR_H) ∧
    ((normalize_avatar [10, 20, 30] 1 1 3).drop (0 * 4)).take 4 =
      [10, 20, 30, 255] :=
  ⟨by decide, ((normalize_avatar_spec [10, 20, 30] 1 1 3).2 0 (by decide)).2.1
    rfl⟩

/-- C7 (amended: channel count at least 1): oversized dimensions are
truncated down to the 8×8 maximum, and — provided the channel count is at
least 1 — every flat source index dereferenced by the conversion loop is
strictly below `width * height * channel_count`, the size of the source
buffer. -/
theorem avatar_src_reads_in_bounds (av_w av_h av_ch : Nat)
    (hch : 1 ≤ av_ch) :
    clampDim av_w MAX_AVATAR_W ≤ MAX_AVATAR_W ∧
    clampDim av_h MAX_AVATAR_H ≤ MAX_AVATAR_H ∧
    ∀ idx ∈ srcReads av_ch (clampDim av_w MAX_AVATAR_W)
        (clampDim av_h MAX_AVATAR_H),
      idx < av_w * av_h * av_ch := by
  have hclw : clampDim av_w MAX_AVATAR_W ≤ av_w := by
    unfold clampDim
    split_ifs with h
    · omega
    · exact le_refl _
  have hclh : clampDim av_h MAX_AVATAR_H ≤ av_h := by
    unfold clampDim
    split_ifs with h
    · omega
    · exact le_refl _
  refine ⟨?_, ?_, ?_⟩
  · unfold clampDim
    split_ifs with h <;> omega
  · unfold clampDim
    split_ifs with h <;> omega
  · intro idx hidx
    simp only [srcReads, List.mem_flatMap, List.mem_range] at hidx
    obtain ⟨y, hy, x, hx, hmem⟩ := hidx
    have hi1 : y * clampDim av_w MAX_AVATAR_W + x + 1 ≤
        clampDim av_h MAX_AVATAR_H * clampDim av_w MAX_AVATAR_W := by
      have hstep : (y + 1) * clampDim av_w MAX_AVATAR_W ≤
          clampDim av_h MAX_AVATAR_H * clampDim av_w MAX_AVATAR_W :=
        Nat.mul_le_mul_right _ hy
      calc y * clampDim av_w MAX_AVATAR_W + x + 1
          ≤ y * clampDim av_w MAX_AVATAR_W + clampDim av_w MAX_AVATAR_W := by
            omega
        _ = (y + 1) * clampDim av_w MAX_AVATAR_W := by ring
        _ ≤ _ := hstep
    have hprod : clampDim av_h MAX_AVATAR_H * clampDim av_w MAX_AVATAR_W ≤
        av_h * av_w := Nat.mul_le_mul hclh hclw
    have hiw : y * clampDim av_w MAX_AVATAR_W + x + 1 ≤ av_h * av_w := by
      omega
    split_ifs at hmem with h4 h3
    · have hb : (y * clampDim av_w MAX_AVATAR_W + x) * 4 + 4 ≤
          av_w * av_h * 4 := by
        have := Nat.mul_le_mul_right 4 hiw
        calc (y * clampDim av_w MAX_AVATAR_W + x) * 4 + 4
            = (y * clampDim av_w MAX_AVATAR_W + x + 1) * 4 := by ring
          _ ≤ av_h * av_w * 4 := this
          _ = av_w * av_h * 4 := by ring
      rw [h4]
      simp only [List.mem_cons, List.not_mem_nil, or_false] at hmem
      show idx < av_w * av_h * RGBA_CHANNEL_COUNT
      unfold RGBA_CHANNEL_COUNT
      rcases hmem with rfl | rfl | rfl | rfl <;>
        simp only [RGBA_CHANNEL_COUNT] <;> omega
    · have hb : (y * clampDim av_w MAX_AVATAR_W + x) * 3 + 3 ≤
          av_w * av_h * 3 := by
        have := Nat.mul_le_mul_right 3 hiw
        calc (y * clampDim av_w MAX_AVATAR_W + x) * 3 + 3
            = (y * clampDim av_w MAX_AVATAR_W + x + 1) * 3 := by ring
          _ ≤ av_h * av_w * 3 := this
          _ = av_w * av_h * 3 := by ring
      rw [h3]
      show idx < av_w * av_h * RGB_CHANNEL_COUNT
      unfold RGB_CHANNEL_COUNT
      simp only [List.mem_cons, List.not_mem_nil, or_false] at hmem
      rcases hmem with rfl | rfl | rfl <;>
        simp only [RGB_CHANNEL_COUNT] <;> omega
    · simp only [List.mem_cons, List.not_mem_nil, or_false] at hmem
      subst hmem
      have hmul : av_h * av_w ≤ av_h * av_w * av_ch := by
        calc av_h * av_w = av_h * av_w * 1 := by ring
          _ ≤ av_h * av_w * av_ch := Nat.mul_le_mul_left _ hch
      have : av_h * av_w * av_ch = av_w * av_h * av_ch := by ring
      omega

/-- Witness for C7: a 9×2 3-channel input is clamped to 8×2 and every
source read stays below the 54-byte source buffer. -/
theorem avatar_src_reads_in_bounds_witness :
    (1 ≤ 3) ∧
    (clampDim 9 MAX_AVATAR_W ≤ MAX_AVATAR_W ∧
     clampDim 2 MAX_AVATAR_H ≤ MAX_AVATAR_H ∧
     ∀ idx ∈ srcReads 3 (clampDim 9 MAX_AVATAR_W) (clampDim 2 MAX_AVATAR_H),
       idx < 9 * 2 * 3) :=
  ⟨by decide, avatar_src_reads_in_bounds 9 2 3 (by decide)⟩

/-- C7 counterexample: with channel count 0 (and a 1×1 image), the
grayscale fallback still dereferences source index 0, but the source
buffer holds `1 * 1 * 0 = 0` bytes — the dereferenced index is not within
the buffer, an out-of-bounds read. -/
theorem avatar_src_reads_counterexample :
    0 ∈ srcReads 0 (clampDim 1 MAX_AVATAR_W) (clampDim 1 MAX_AVATAR_H) ∧
    ¬(0 < 1 * 1 * 0) := by decide

/-- C1 (code bug): `ensure_player` fails to register created rows.  From
the initial state, creating a player for identity 1 leaves the table
lookup for identity 1 still returning NULL and `g_player_count` still 0
(the counter is never incremented), so a later `ensure_player` call does
not return the existing row — it re-runs creation.  A subsequent call for
identity 2 is then written into the very same slot 1, erasing identity
1's row: afterwards no slot holds identity 1. -/
theorem ensure_player_row_lost :
    ((ensure_player 0 0 sInit 1).map
        (fun r => (find_player_by_ip r.2 1, r.2.player_count)) =
      some (none, 0)) ∧
    (((ensure_player 0 0 sInit 1).bind (fun r1 =>
        ensure_player 0 0 r1.2 2)).map
        (fun r2 => (r2.1, (r2.2.players.getD 1 zeroPlayer).ip,
          decide (∀ i < MAX_PLAYERS,
            (r2.2.players.getD i zeroPlayer).ip ≠ 1))) =
      some (1, 2, true)) := by decide

/-- C2: the player count of every reachable state is bounded by
`MAX_PLAYERS`, and on any state whose count reports a full table an
`ensure_player` call for an identity not in the table returns NULL
(`none`) without touching the state. -/
theorem player_table_capacity (s t : ServerState) (hs : Reachable s)
    (target_ip rx ry : Nat) (hfull : MAX_PLAYERS ≤ t.player_count)
    (hmiss : find_player_by_ip t target_ip = none) :
    s.player_count ≤ MAX_PLAYERS ∧ ensure_player rx ry t target_ip = none := by
  constructor
  · rw [(reachable_invariant s hs).2.1]
    exact Nat.zero_le _
  · unfold ensure_player
    rw [hmiss]
    simp only [if_pos hfull]

/-- Witness for C2, at the initial state and a state whose count reports
a full table. -/
theorem player_table_capacity_witness :
    (MAX_PLAYERS ≤ sFull.player_count ∧ find_player_by_ip sFull 5 = none) ∧
    (sInit.player_count ≤ MAX_PLAYERS ∧ ensure_player 0 0 sFull 5 = none) :=
  ⟨⟨by decide, by decide⟩,
   player_table_capacity sInit sFull Reachable.init 5 0 0 (by decide)
     (by decide)⟩

/-- C3 (code bug): `g_next_player_id` is never incremented, so the ids
assigned to successively created players are not strictly increasing:
creating players for the distinct identities 1 and then 2 assigns both of
them `player_id` 2 (the id is also not the advertised first value 1), and
the counter still holds 1 afterwards. -/
theorem player_ids_not_increasing :
    ((ensure_player 0 0 sInit 1).bind (fun r1 =>
        (ensure_player 0 0 r1.2 2).map (fun r2 =>
          ((r1.2.players.getD 1 zeroPlayer).player_id,
           (r2.2.players.getD 1 zeroPlayer).player_id,
           r2.2.next_player_id)))) = some (2, 2, 1) := by decide

/-- C4: whenever the capacity check of `ensure_player` passes on a
reachable state, the slot index it writes — `g_player_count + 1` — is
strictly below `MAX_PLAYERS`, hence a valid index of `g_players`.
(Reachable states in fact always have `g_player_count = 0`, because
`ensure_player` never increments the counter.) -/
theorem ensure_write_index_valid (s : ServerState) (hs : Reachable s)
    (hcap : s.player_count < MAX_PLAYERS) :
    s.player_count + 1 < MAX_PLAYERS := by
  rw [(reachable_invariant s hs).2.1]
  decide

/-- Witness for C4 at the initial state. -/
theorem ensure_write_index_valid_witness :
    sInit.player_count < MAX_PLAYERS ∧ sInit.player_count + 1 < MAX_PLAYERS :=
  ⟨by decide, ensure_write_index_valid sInit Reachable.init (by decide)⟩

/-- C10: on every reachable state and for every value of the two `rand()`
draws, the player slot produced by `ensure_player` holds a position
inside the configured rectangle
(`MIN_PLAYER_X_POS ≤ pos_x ≤ MAX_PLAYER_X_POS`, likewise for y; the
arguments `irand` receives make the position the constant
`(MIN_PLAYER_X_POS, MIN_PLAYER_Y_POS)`). -/
theorem ensure_player_position_in_rect (s : ServerState) (hs : Reachable s)
    (rx ry target_ip : Nat) :
    createdPosOk (ensure_player rx ry s target_ip) = true := by
  obtain ⟨hlen, hcount, hnext⟩ := reachable_invariant s hs
  have hfind : find_player_by_ip s target_ip = none := by
    unfold find_player_by_ip
    rw [hcount]
    rfl
  unfold ensure_player
  rw [hfind, hcount]
  rw [if_neg (by decide)]
  unfold createdPosOk
  dsimp only
  rw [getD_set_self _ _ _ _ (by rw [hlen]; decide)]
  simp [irand, MIN_PLAYER_X_POS, MAX_PLAYER_X_POS, MIN_PLAYER_Y_POS,
    MAX_PLAYER_Y_POS, WINDOW_W, WINDOW_H, Int.emod_one]

/-- Witness for C10 at the initial state. -/
theorem ensure_player_position_in_rect_witness :
    createdPosOk (ensure_player 0 0 sInit 7) = true :=
  ensure_player_position_in_rect sInit Reachable.init 0 0 7

end Networking101
